import Mathlib

/-!
Shallow embedding of `flavio/physics/bdecays/lambdablambdall.py`:
the Λb → Λ ℓ⁺ℓ⁻ decay pipeline (helicity amplitudes → transversity
amplitudes → angular coefficients → observables).  Python floats are
modelled as real numbers, Python complex numbers as `ℂ`, and the
string/tuple-keyed dictionaries as functions out of finite key types.
External collaborators (parameter registry, Wilson-coefficient running,
form-factor prediction, CKM lookup, numeric integrator) are modelled as
an explicit record of functions supplied by the environment.
-/

noncomputable section

/-- Keys of the 8-entry form-factor dictionary `ff`. -/
inductive FFKey
  | fV0 | fVperp | fA0 | fAperp | fT0 | fTperp | fT50 | fT5perp
  deriving DecidableEq, Fintype

/-- Keys of the 16-entry helicity-amplitude dictionary `H`:
`h0Vpp` stands for the Python key `'0V++'`, `hpVmp` for `'+V-+'`, etc. -/
inductive HKey
  | h0Vpp | hpVmp | h0App | hpAmp | h0Tpp | hpTmp | h0T5pp | hpT5mp
  | h0Vmm | hpVpm | h0Amm | hpApm | h0Tmm | hpTpm | h0T5mm | hpT5pm
  deriving DecidableEq, Fintype

/-- Transversity-amplitude type component of the tuple keys of `A`. -/
inductive AmpType
  | perp1 | para1 | perp0 | para0
  deriving DecidableEq, Fintype

/-- Lepton chirality component of the tuple keys of `A`. -/
inductive Chir
  | L | R
  deriving DecidableEq, Fintype

/-- Keys of the 6-entry effective Wilson-coefficient dictionary `wc`:
`c7` stands for the Python key `'7'`, `c7p` for `'7p'`. -/
inductive WCKey
  | v | a | vp | ap | c7 | c7p
  deriving DecidableEq, Fintype

/-- Keys of the angular-coefficient dictionary `K` built by
`angular_coefficients`: `k1ss` stands for the Python key `'1ss'`, etc. -/
inductive AngKey
  | k1ss | k1cc | k1c | k2ss | k2cc | k2c | k3sc | k3s | k4sc | k4s
  deriving DecidableEq, Fintype

/-- Embedding of `helicity_amps(q2, mLb, mL, ff)`: the Λb → Λ helicity
amplitudes, eqs. (3.12)-(3.15) of arXiv:1410.2115.  The eight `-helicity`
entries are copies (with fixed signs) of the eight `+helicity` entries,
exactly as in the source. -/
def helicity_amps (q2 mLb mL : ℝ) (ff : FFKey → ℝ) : HKey → ℝ :=
  let sp := (mLb + mL) ^ 2 - q2
  let sm := (mLb - mL) ^ 2 - q2
  let h0Vpp := ff FFKey.fV0 * (mLb + mL) / Real.sqrt q2 * Real.sqrt sm
  let hpVmp := -ff FFKey.fVperp * Real.sqrt (2 * sm)
  let h0App := ff FFKey.fA0 * (mLb - mL) / Real.sqrt q2 * Real.sqrt sp
  let hpAmp := -ff FFKey.fAperp * Real.sqrt (2 * sp)
  let h0Tpp := -ff FFKey.fT0 * Real.sqrt q2 * Real.sqrt sm
  let hpTmp := ff FFKey.fTperp * (mLb + mL) * Real.sqrt (2 * sm)
  let h0T5pp := ff FFKey.fT50 * Real.sqrt q2 * Real.sqrt sp
  let hpT5mp := -ff FFKey.fT5perp * (mLb - mL) * Real.sqrt (2 * sp)
  fun k => match k with
  | HKey.h0Vpp => h0Vpp
  | HKey.hpVmp => hpVmp
  | HKey.h0App => h0App
  | HKey.hpAmp => hpAmp
  | HKey.h0Tpp => h0Tpp
  | HKey.hpTmp => hpTmp
  | HKey.h0T5pp => h0T5pp
  | HKey.hpT5mp => hpT5mp
  | HKey.h0Vmm => h0Vpp
  | HKey.hpVpm => hpVmp
  | HKey.h0Amm => -h0App
  | HKey.hpApm => -hpAmp
  | HKey.h0Tmm => h0Tpp
  | HKey.hpTpm => hpTmp
  | HKey.h0T5mm => -h0T5pp
  | HKey.hpT5pm => -hpT5mp

/-- Claim C3: for all inputs the eight independent `+helicity` entries of
`helicity_amps` are exactly form factor × kinematic factor as given by the
specification table, with `sp = (mLb+mL)²−q2` and `sm = (mLb−mL)²−q2`:
`0V++ = fV0·(mLb+mL)/√q2·√sm`, `+V−+ = −fVperp·√(2·sm)`,
`0A++ = fA0·(mLb−mL)/√q2·√sp`, `+A−+ = −fAperp·√(2·sp)`,
`0T++ = −fT0·√q2·√sm`, `+T−+ = fTperp·(mLb+mL)·√(2·sm)`,
`0T5++ = fT50·√q2·√sp`, `+T5−+ = −fT5perp·(mLb−mL)·√(2·sp)`. -/
theorem helicity_amps_plus_entries (q2 mLb mL : ℝ) (ff : FFKey → ℝ) :
    helicity_amps q2 mLb mL ff HKey.h0Vpp =
      ff FFKey.fV0 * (mLb + mL) / Real.sqrt q2 * Real.sqrt ((mLb - mL) ^ 2 - q2) ∧
    helicity_amps q2 mLb mL ff HKey.hpVmp =
      -(ff FFKey.fVperp * Real.sqrt (2 * ((mLb - mL) ^ 2 - q2))) ∧
    helicity_amps q2 mLb mL ff HKey.h0App =
      ff FFKey.fA0 * (mLb - mL) / Real.sqrt q2 * Real.sqrt ((mLb + mL) ^ 2 - q2) ∧
    helicity_amps q2 mLb mL ff HKey.hpAmp =
      -(ff FFKey.fAperp * Real.sqrt (2 * ((mLb + mL) ^ 2 - q2))) ∧
    helicity_amps q2 mLb mL ff HKey.h0Tpp =
      -(ff FFKey.fT0 * Real.sqrt q2 * Real.sqrt ((mLb - mL) ^ 2 - q2)) ∧
    helicity_amps q2 mLb mL ff HKey.hpTmp =
      ff FFKey.fTperp * (mLb + mL) * Real.sqrt (2 * ((mLb - mL) ^ 2 - q2)) ∧
    helicity_amps q2 mLb mL ff HKey.h0T5pp =
      ff FFKey.fT50 * Real.sqrt q2 * Real.sqrt ((mLb + mL) ^ 2 - q2) ∧
    helicity_amps q2 mLb mL ff HKey.hpT5mp =
      -(ff FFKey.fT5perp * (mLb - mL) * Real.sqrt (2 * ((mLb + mL) ^ 2 - q2))) := by
  refine ⟨rfl, by simp [helicity_amps], rfl, by simp [helicity_amps],
    by simp [helicity_amps], rfl, rfl, by simp [helicity_amps]⟩

/-- Claim C5: for all inputs the eight `-helicity` entries of
`helicity_amps` satisfy the fixed sign identities: V and T entries are
invariant under helicity flip, A and T5 entries are negated. -/
theorem helicity_amps_sign_identities (q2 mLb mL : ℝ) (ff : FFKey → ℝ) :
    helicity_amps q2 mLb mL ff HKey.h0Vmm = helicity_amps q2 mLb mL ff HKey.h0Vpp ∧
    helicity_amps q2 mLb mL ff HKey.hpVpm = helicity_amps q2 mLb mL ff HKey.hpVmp ∧
    helicity_amps q2 mLb mL ff HKey.h0Amm = -helicity_amps q2 mLb mL ff HKey.h0App ∧
    helicity_amps q2 mLb mL ff HKey.hpApm = -helicity_amps q2 mLb mL ff HKey.hpAmp ∧
    helicity_amps q2 mLb mL ff HKey.h0Tmm = helicity_amps q2 mLb mL ff HKey.h0Tpp ∧
    helicity_amps q2 mLb mL ff HKey.hpTpm = helicity_amps q2 mLb mL ff HKey.hpTmp ∧
    helicity_amps q2 mLb mL ff HKey.h0T5mm = -helicity_amps q2 mLb mL ff HKey.h0T5pp ∧
    helicity_amps q2 mLb mL ff HKey.hpT5pm = -helicity_amps q2 mLb mL ff HKey.hpT5mp := by
  exact ⟨rfl, rfl, rfl, rfl, rfl, rfl, rfl, rfl⟩

/-- Embedding of `transverity_amps(ha, q2, mLb, mL, mqh, mql, wc, prefactor)`:
the transversity amplitudes, eq. (3.16) of arXiv:1410.2115.  The real
helicity amplitudes are promoted to `ℂ`, the comprehension
`{k: prefactor*v for k, v in A.items()}` appears as the outer
multiplication by `prefactor`. -/
def transverity_amps (ha : HKey → ℝ) (q2 mLb mL mqh mql : ℝ)
    (wc : WCKey → ℂ) (prefactor : ℂ) : AmpType × Chir → ℂ :=
  let C910Lpl := (wc WCKey.v - wc WCKey.a) + (wc WCKey.vp - wc WCKey.ap)
  let C910Rpl := (wc WCKey.v + wc WCKey.a) + (wc WCKey.vp + wc WCKey.ap)
  let C910Lmi := (wc WCKey.v - wc WCKey.a) - (wc WCKey.vp - wc WCKey.ap)
  let C910Rmi := (wc WCKey.v + wc WCKey.a) - (wc WCKey.vp + wc WCKey.ap)
  fun k => prefactor *
    (match k with
    | (AmpType.perp1, Chir.L) =>
        (Real.sqrt 2 : ℂ) * (C910Lpl * (ha HKey.hpVmp : ℂ)
          - 2 * (mqh : ℂ) * (wc WCKey.c7 + wc WCKey.c7p) / (q2 : ℂ) * (ha HKey.hpTmp : ℂ))
    | (AmpType.perp1, Chir.R) =>
        (Real.sqrt 2 : ℂ) * (C910Rpl * (ha HKey.hpVmp : ℂ)
          - 2 * (mqh : ℂ) * (wc WCKey.c7 + wc WCKey.c7p) / (q2 : ℂ) * (ha HKey.hpTmp : ℂ))
    | (AmpType.para1, Chir.L) =>
        -((Real.sqrt 2 : ℂ) * (C910Lmi * (ha HKey.hpAmp : ℂ)
          + 2 * (mqh : ℂ) * (wc WCKey.c7 - wc WCKey.c7p) / (q2 : ℂ) * (ha HKey.hpT5mp : ℂ)))
    | (AmpType.para1, Chir.R) =>
        -((Real.sqrt 2 : ℂ) * (C910Rmi * (ha HKey.hpAmp : ℂ)
          + 2 * (mqh : ℂ) * (wc WCKey.c7 - wc WCKey.c7p) / (q2 : ℂ) * (ha HKey.hpT5mp : ℂ)))
    | (AmpType.perp0, Chir.L) =>
        (Real.sqrt 2 : ℂ) * (C910Lpl * (ha HKey.h0Vpp : ℂ)
          - 2 * (mqh : ℂ) * (wc WCKey.c7 + wc WCKey.c7p) / (q2 : ℂ) * (ha HKey.h0Tpp : ℂ))
    | (AmpType.perp0, Chir.R) =>
        (Real.sqrt 2 : ℂ) * (C910Rpl * (ha HKey.h0Vpp : ℂ)
          - 2 * (mqh : ℂ) * (wc WCKey.c7 + wc WCKey.c7p) / (q2 : ℂ) * (ha HKey.h0Tpp : ℂ))
    | (AmpType.para0, Chir.L) =>
        -((Real.sqrt 2 : ℂ) * (C910Lmi * (ha HKey.h0App : ℂ)
          + 2 * (mqh : ℂ) * (wc WCKey.c7 - wc WCKey.c7p) / (q2 : ℂ) * (ha HKey.h0T5pp : ℂ)))
    | (AmpType.para0, Chir.R) =>
        -((Real.sqrt 2 : ℂ) * (C910Rmi * (ha HKey.h0App : ℂ)
          + 2 * (mqh : ℂ) * (wc WCKey.c7 - wc WCKey.c7p) / (q2 : ℂ) * (ha HKey.h0T5pp : ℂ))))

/-- Chirality combination from the specification: `C_L+ = (v−a)+(vp−ap)`,
`C_R+ = (v+a)+(vp+ap)` — the `+` combination, used in the `perp` channels. -/
def c910_pl (wc : WCKey → ℂ) : Chir → ℂ
  | Chir.L => (wc WCKey.v - wc WCKey.a) + (wc WCKey.vp - wc WCKey.ap)
  | Chir.R => (wc WCKey.v + wc WCKey.a) + (wc WCKey.vp + wc WCKey.ap)

/-- Chirality combination from the specification: `C_L− = (v−a)−(vp−ap)`,
`C_R− = (v+a)−(vp+ap)` — the `−` combination, used in the `para` channels. -/
def c910_mi (wc : WCKey → ℂ) : Chir → ℂ
  | Chir.L => (wc WCKey.v - wc WCKey.a) - (wc WCKey.vp - wc WCKey.ap)
  | Chir.R => (wc WCKey.v + wc WCKey.a) - (wc WCKey.vp + wc WCKey.ap)

/-- Claim C4: every entry of `transverity_amps` equals the prefactor `N`
times the specified combination: the `perp` channels use the `+` chirality
combination `c910_pl` and the dipole sum `c7+c7p`, the `para` channels use
the `−` combination `c910_mi` and the dipole difference `c7−c7p`, with the
stated overall signs `+√2` (perp) and `−√2` (para), for both chiralities. -/
theorem transverity_amps_formulas (ha : HKey → ℝ) (q2 mLb mL mqh mql : ℝ)
    (wc : WCKey → ℂ) (N : ℂ) :
    (∀ chir : Chir,
      transverity_amps ha q2 mLb mL mqh mql wc N (AmpType.perp1, chir) =
        N * ((Real.sqrt 2 : ℂ) * (c910_pl wc chir * (ha HKey.hpVmp : ℂ)
          - 2 * (mqh : ℂ) * (wc WCKey.c7 + wc WCKey.c7p) / (q2 : ℂ) * (ha HKey.hpTmp : ℂ)))) ∧
    (∀ chir : Chir,
      transverity_amps ha q2 mLb mL mqh mql wc N (AmpType.para1, chir) =
        N * (-((Real.sqrt 2 : ℂ) * (c910_mi wc chir * (ha HKey.hpAmp : ℂ)
          + 2 * (mqh : ℂ) * (wc WCKey.c7 - wc WCKey.c7p) / (q2 : ℂ) * (ha HKey.hpT5mp : ℂ))))) ∧
    (∀ chir : Chir,
      transverity_amps ha q2 mLb mL mqh mql wc N (AmpType.perp0, chir) =
        N * ((Real.sqrt 2 : ℂ) * (c910_pl wc chir * (ha HKey.h0Vpp : ℂ)
          - 2 * (mqh : ℂ) * (wc WCKey.c7 + wc WCKey.c7p) / (q2 : ℂ) * (ha HKey.h0Tpp : ℂ)))) ∧
    (∀ chir : Chir,
      transverity_amps ha q2 mLb mL mqh mql wc N (AmpType.para0, chir) =
        N * (-((Real.sqrt 2 : ℂ) * (c910_mi wc chir * (ha HKey.h0App : ℂ)
          + 2 * (mqh : ℂ) * (wc WCKey.c7 - wc WCKey.c7p) / (q2 : ℂ) * (ha HKey.h0T5pp : ℂ))))) := by
  refine ⟨fun chir => ?_, fun chir => ?_, fun chir => ?_, fun chir => ?_⟩ <;>
    cases chir <;> rfl

/-- Claim C10: `transverity_amps` does not depend on its `mLb`, `mL` and
`mql` arguments — two calls agreeing on the helicity amplitudes, `q2`,
`mqh`, the Wilson bundle and the prefactor return identical 8-entry
transversity amplitude sets whatever those three arguments are. -/
theorem transverity_amps_mass_independent (ha : HKey → ℝ) (q2 mqh : ℝ)
    (wc : WCKey → ℂ) (N : ℂ) (mLb mL mql mLb' mL' mql' : ℝ) :
    transverity_amps ha q2 mLb mL mqh mql wc N =
      transverity_amps ha q2 mLb' mL' mqh mql' wc N := rfl

/-- Embedding of `angular_coefficients(ta, alpha)`: the angular
coefficients, eqs. (3.29)-(3.32) of arXiv:1410.2115.  Python's
`abs(z)**2` is `Complex.abs z ^ 2`, `.conj()` is `starRingEnd ℂ`, and
`.real` / `.imag` are `Complex.re` / `Complex.im`. -/
def angular_coefficients (ta : AmpType × Chir → ℂ) (alpha : ℝ) : AngKey → ℝ :=
  fun k => match k with
  | AngKey.k1ss => 1 / 4 *
      (Complex.abs (ta (AmpType.perp1, Chir.R)) ^ 2 + Complex.abs (ta (AmpType.perp1, Chir.L)) ^ 2
       + Complex.abs (ta (AmpType.para1, Chir.R)) ^ 2 + Complex.abs (ta (AmpType.para1, Chir.L)) ^ 2
       + 2 * Complex.abs (ta (AmpType.perp0, Chir.R)) ^ 2
       + 2 * Complex.abs (ta (AmpType.perp0, Chir.L)) ^ 2
       + 2 * Complex.abs (ta (AmpType.para0, Chir.R)) ^ 2
       + 2 * Complex.abs (ta (AmpType.para0, Chir.L)) ^ 2)
  | AngKey.k1cc => 1 / 2 *
      (Complex.abs (ta (AmpType.perp1, Chir.R)) ^ 2 + Complex.abs (ta (AmpType.perp1, Chir.L)) ^ 2
       + Complex.abs (ta (AmpType.para1, Chir.R)) ^ 2 + Complex.abs (ta (AmpType.para1, Chir.L)) ^ 2)
  | AngKey.k1c =>
      -(ta (AmpType.perp1, Chir.R) * starRingEnd ℂ (ta (AmpType.para1, Chir.R))
        - ta (AmpType.perp1, Chir.L) * starRingEnd ℂ (ta (AmpType.para1, Chir.L))).re
  | AngKey.k2ss => alpha / 2 *
      (ta (AmpType.perp1, Chir.R) * starRingEnd ℂ (ta (AmpType.para1, Chir.R))
       + 2 * ta (AmpType.perp0, Chir.R) * starRingEnd ℂ (ta (AmpType.para0, Chir.R))
       + ta (AmpType.perp1, Chir.L) * starRingEnd ℂ (ta (AmpType.para1, Chir.L))
       + 2 * ta (AmpType.perp0, Chir.L) * starRingEnd ℂ (ta (AmpType.para0, Chir.L))).re
  | AngKey.k2cc => alpha *
      (ta (AmpType.perp1, Chir.R) * starRingEnd ℂ (ta (AmpType.para1, Chir.R))
       + ta (AmpType.perp1, Chir.L) * starRingEnd ℂ (ta (AmpType.para1, Chir.L))).re
  | AngKey.k2c => -(alpha / 2) *
      (Complex.abs (ta (AmpType.perp1, Chir.R)) ^ 2 - Complex.abs (ta (AmpType.perp1, Chir.L)) ^ 2
       + Complex.abs (ta (AmpType.para1, Chir.R)) ^ 2 - Complex.abs (ta (AmpType.para1, Chir.L)) ^ 2)
  | AngKey.k3sc => alpha / Real.sqrt 2 *
      (ta (AmpType.perp1, Chir.R) * starRingEnd ℂ (ta (AmpType.perp0, Chir.R))
       - ta (AmpType.para1, Chir.R) * starRingEnd ℂ (ta (AmpType.para0, Chir.R))
       + ta (AmpType.perp1, Chir.L) * starRingEnd ℂ (ta (AmpType.perp0, Chir.L))
       - ta (AmpType.para1, Chir.L) * starRingEnd ℂ (ta (AmpType.para0, Chir.L))).im
  | AngKey.k3s => alpha / Real.sqrt 2 *
      (ta (AmpType.perp1, Chir.R) * starRingEnd ℂ (ta (AmpType.para0, Chir.R))
       - ta (AmpType.para1, Chir.R) * starRingEnd ℂ (ta (AmpType.perp0, Chir.R))
       - ta (AmpType.perp1, Chir.L) * starRingEnd ℂ (ta (AmpType.para0, Chir.L))
       + ta (AmpType.para1, Chir.L) * starRingEnd ℂ (ta (AmpType.perp0, Chir.L))).im
  | AngKey.k4sc => alpha / Real.sqrt 2 *
      (ta (AmpType.perp1, Chir.R) * starRingEnd ℂ (ta (AmpType.para0, Chir.R))
       - ta (AmpType.para1, Chir.R) * starRingEnd ℂ (ta (AmpType.perp0, Chir.R))
       + ta (AmpType.perp1, Chir.L) * starRingEnd ℂ (ta (AmpType.para0, Chir.L))
       - ta (AmpType.para1, Chir.L) * starRingEnd ℂ (ta (AmpType.perp0, Chir.L))).im
  | AngKey.k4s => alpha / Real.sqrt 2 *
      (ta (AmpType.perp1, Chir.R) * starRingEnd ℂ (ta (AmpType.perp0, Chir.R))
       - ta (AmpType.para1, Chir.R) * starRingEnd ℂ (ta (AmpType.para0, Chir.R))
       - ta (AmpType.perp1, Chir.L) * starRingEnd ℂ (ta (AmpType.perp0, Chir.L))
       + ta (AmpType.para1, Chir.L) * starRingEnd ℂ (ta (AmpType.para0, Chir.L))).im

/-- Angular coefficients written following the specification text of §4.3
verbatim: squared magnitudes appear as "amplitude times its own conjugate"
(real part of `z * conj z`), cross products with conjugates take the real
or imaginary part as listed per coefficient, with the stated signs and
chirality pairings.  To be compared with `angular_coefficients`. -/
def angular_coefficients_spec (ta : AmpType × Chir → ℂ) (alpha : ℝ) : AngKey → ℝ :=
  let sqmag : ℂ → ℝ := fun z => (z * starRingEnd ℂ z).re
  fun k => match k with
  | AngKey.k1ss => 1 / 4 *
      (sqmag (ta (AmpType.perp1, Chir.R)) + sqmag (ta (AmpType.perp1, Chir.L))
       + sqmag (ta (AmpType.para1, Chir.R)) + sqmag (ta (AmpType.para1, Chir.L))
       + 2 * sqmag (ta (AmpType.perp0, Chir.R)) + 2 * sqmag (ta (AmpType.perp0, Chir.L))
       + 2 * sqmag (ta (AmpType.para0, Chir.R)) + 2 * sqmag (ta (AmpType.para0, Chir.L)))
  | AngKey.k1cc => 1 / 2 *
      (sqmag (ta (AmpType.perp1, Chir.R)) + sqmag (ta (AmpType.perp1, Chir.L))
       + sqmag (ta (AmpType.para1, Chir.R)) + sqmag (ta (AmpType.para1, Chir.L)))
  | AngKey.k1c =>
      -(ta (AmpType.perp1, Chir.R) * starRingEnd ℂ (ta (AmpType.para1, Chir.R))
        - ta (AmpType.perp1, Chir.L) * starRingEnd ℂ (ta (AmpType.para1, Chir.L))).re
  | AngKey.k2ss => alpha / 2 *
      (ta (AmpType.perp1, Chir.R) * starRingEnd ℂ (ta (AmpType.para1, Chir.R))
       + 2 * ta (AmpType.perp0, Chir.R) * starRingEnd ℂ (ta (AmpType.para0, Chir.R))
       + ta (AmpType.perp1, Chir.L) * starRingEnd ℂ (ta (AmpType.para1, Chir.L))
       + 2 * ta (AmpType.perp0, Chir.L) * starRingEnd ℂ (ta (AmpType.para0, Chir.L))).re
  | AngKey.k2cc => alpha *
      (ta (AmpType.perp1, Chir.R) * starRingEnd ℂ (ta (AmpType.para1, Chir.R))
       + ta (AmpType.perp1, Chir.L) * starRingEnd ℂ (ta (AmpType.para1, Chir.L))).re
  | AngKey.k2c => -(alpha / 2) *
      (sqmag (ta (AmpType.perp1, Chir.R)) - sqmag (ta (AmpType.perp1, Chir.L))
       + sqmag (ta (AmpType.para1, Chir.R)) - sqmag (ta (AmpType.para1, Chir.L)))
  | AngKey.k3sc => alpha / Real.sqrt 2 *
      (ta (AmpType.perp1, Chir.R) * starRingEnd ℂ (ta (AmpType.perp0, Chir.R))
       - ta (AmpType.para1, Chir.R) * starRingEnd ℂ (ta (AmpType.para0, Chir.R))
       + ta (AmpType.perp1, Chir.L) * starRingEnd ℂ (ta (AmpType.perp0, Chir.L))
       - ta (AmpType.para1, Chir.L) * starRingEnd ℂ (ta (AmpType.para0, Chir.L))).im
  | AngKey.k3s => alpha / Real.sqrt 2 *
      (ta (AmpType.perp1, Chir.R) * starRingEnd ℂ (ta (AmpType.para0, Chir.R))
       - ta (AmpType.para1, Chir.R) * starRingEnd ℂ (ta (AmpType.perp0, Chir.R))
       - ta (AmpType.perp1, Chir.L) * starRingEnd ℂ (ta (AmpType.para0, Chir.L))
       + ta (AmpType.para1, Chir.L) * starRingEnd ℂ (ta (AmpType.perp0, Chir.L))).im
  | AngKey.k4sc => alpha / Real.sqrt 2 *
      (ta (AmpType.perp1, Chir.R) * starRingEnd ℂ (ta (AmpType.para0, Chir.R))
       - ta (AmpType.para1, Chir.R) * starRingEnd ℂ (ta (AmpType.perp0, Chir.R))
       + ta (AmpType.perp1, Chir.L) * starRingEnd ℂ (ta (AmpType.para0, Chir.L))
       - ta (AmpType.para1, Chir.L) * starRingEnd ℂ (ta (AmpType.perp0, Chir.L))).im
  | AngKey.k4s => alpha / Real.sqrt 2 *
      (ta (AmpType.perp1, Chir.R) * starRingEnd ℂ (ta (AmpType.perp0, Chir.R))
       - ta (AmpType.para1, Chir.R) * starRingEnd ℂ (ta (AmpType.para0, Chir.R))
       - ta (AmpType.perp1, Chir.L) * starRingEnd ℂ (ta (AmpType.perp0, Chir.L))
       + ta (AmpType.para1, Chir.L) * starRingEnd ℂ (ta (AmpType.para0, Chir.L))).im

/-- Claim C2 (counterexample): `angular_coefficients` does not return nine
coefficients — its key set `AngKey` has exactly ten elements
(`1ss,1cc,1c,2ss,2cc,2c,3sc,3s,4sc,4s`), not nine. -/
theorem angular_coefficients_not_nine_keys :
    Fintype.card AngKey = 10 ∧ Fintype.card AngKey ≠ 9 := by
  constructor <;> decide

/-- Claim C2 (amended: ten coefficients, not nine): for every transversity
amplitude set and every α, `angular_coefficients` returns, on each of its
ten keys, exactly the real coefficient given by the specification's
bilinear formulas, with the stated signs, chirality pairings and Re/Im
selections. -/
theorem angular_coefficients_match_spec (ta : AmpType × Chir → ℂ) (alpha : ℝ) :
    ∀ k : AngKey, angular_coefficients ta alpha k = angular_coefficients_spec ta alpha k := by
  intro k
  cases k <;>
    simp [angular_coefficients, angular_coefficients_spec, Complex.mul_conj,
      Complex.sq_abs, Complex.ofReal_re]

/-- Claim C8: with decay parameter α = 0, the seven α-proportional angular
coefficients `2ss,2cc,2c,3sc,3s,4sc,4s` vanish, while `1ss,1cc,1c` take
the same value as for an arbitrary α (they are independent of α). -/
theorem angular_coefficients_alpha_zero (ta : AmpType × Chir → ℂ) (alpha : ℝ) :
    angular_coefficients ta 0 AngKey.k2ss = 0 ∧
    angular_coefficients ta 0 AngKey.k2cc = 0 ∧
    angular_coefficients ta 0 AngKey.k2c = 0 ∧
    angular_coefficients ta 0 AngKey.k3sc = 0 ∧
    angular_coefficients ta 0 AngKey.k3s = 0 ∧
    angular_coefficients ta 0 AngKey.k4sc = 0 ∧
    angular_coefficients ta 0 AngKey.k4s = 0 ∧
    angular_coefficients ta alpha AngKey.k1ss = angular_coefficients ta 0 AngKey.k1ss ∧
    angular_coefficients ta alpha AngKey.k1cc = angular_coefficients ta 0 AngKey.k1cc ∧
    angular_coefficients ta alpha AngKey.k1c = angular_coefficients ta 0 AngKey.k1c := by
  refine ⟨?_, ?_, ?_, ?_, ?_, ?_, ?_, rfl, rfl, rfl⟩ <;>
    simp [angular_coefficients]

/-- Lepton flavor label (`'e'`, `'mu'`, `'tau'`). -/
inductive Lepton
  | e | mu | tau
  deriving DecidableEq, Fintype

/-- The physical-parameter table: the entries of `par_dict` that this
module reads, plus the remaining (externally consumed) entries. -/
structure Par where
  m_Lambdab : ℝ
  m_Lambda : ℝ
  GF : ℝ
  tau_Lambdab : ℝ
  alphaDecay : ℝ
  m_lep : Lepton → ℝ
  rest : ℕ → ℝ

/-- Modelled from the spec: the kinematic triangle function `lambda_K`
(defined in `flavio.physics.bdecays.common`, which is not under src/),
the Källén triangle function λ(a,b,c). -/
def lambda_K (a b c : ℝ) : ℝ :=
  a ^ 2 + b ^ 2 + c ^ 2 - 2 * (a * b + b * c + c * a)

/-- The external collaborators consumed by the orchestration layer, as an
explicit record: the configuration lookup for the renormalization scale,
the running quark mass, the `Lambdab->Lambda form factor` auxiliary
prediction, the total and effective Wilson-coefficient routines (over an
opaque Wilson-coefficient object type `W` and an opaque total-coefficient
type `T`), the CKM combination `xi('t','bs')`, the running electromagnetic
coupling, and the one-dimensional numeric integrator `nintegrate`. -/
structure Externals (W T : Type) where
  scale : ℝ
  get_mb : Par → ℝ → ℝ
  ff_prediction : Par → ℝ → FFKey → ℝ
  wctot_dict : W → Lepton → ℝ → Par → T
  get_wceff : ℝ → T → Par → Lepton → ℝ → WCKey → ℂ
  xi_t : Par → ℂ
  alpha_e : Par → ℝ → ℝ
  nintegrate : (ℝ → ℝ) → ℝ → ℝ → ℝ

/-- Embedding of the body of `get_transverity_amps` after the
CP-conjugation step (lines 107-121 of the source): gather the external
inputs, build the helicity amplitudes, form the normalization prefactor
`N`, and build the transversity amplitudes with lepton mass argument `0`,
all on the given parameter table. -/
def get_transverity_amps_pipeline {W T : Type} (ext : Externals W T) (q2 : ℝ)
    (wc_obj : W) (par : Par) (lep : Lepton) :
    AmpType × Chir → ℂ :=
  let scale := ext.scale
  let mLb := par.m_Lambdab
  let mL := par.m_Lambda
  let mb := ext.get_mb par scale
  let ff := ext.ff_prediction par q2
  let wc := ext.wctot_dict wc_obj lep scale par
  let wc_eff := ext.get_wceff q2 wc par lep scale
  let ha := helicity_amps q2 mLb mL ff
  let xi_t := ext.xi_t par
  let alphaem := ext.alpha_e par scale
  let la_K := lambda_K (mLb ^ 2) (mL ^ 2) q2
  let N : ℂ := (par.GF : ℂ) * xi_t * (alphaem : ℂ) * (Real.sqrt q2 : ℂ) *
    ((Real.rpow la_K (1 / 4) : ℝ) : ℂ) /
    (Real.sqrt (3 * 2 * mLb ^ 3 * Real.pi ^ 5) : ℂ) / 32
  transverity_amps ha q2 mLb mL mb 0 wc_eff N

/-- A run-time failure of the embedded Python module. -/
inductive PyErr
  | nameErrorConjugatePar
  deriving DecidableEq

/-- Embedding of `get_transverity_amps(q2, wc_obj, par_dict, lep,
cp_conjugate)`.  With `cp_conjugate` set, line 106 of the source executes
`par = conjugate_par(par)`, but the module neither defines `conjugate_par`
nor imports it (line 5 imports only `lambda_K, beta_l, meson_quark,
meson_ff` from `common`), so the call raises a `NameError` before any
transformation of the table; with the flag unset, the pipeline runs on
the copied table. -/
def get_transverity_amps {W T : Type} (ext : Externals W T) (q2 : ℝ)
    (wc_obj : W) (par_dict : Par) (lep : Lepton) (cp_conjugate : Bool) :
    Except PyErr (AmpType × Chir → ℂ) :=
  if cp_conjugate then Except.error PyErr.nameErrorConjugatePar
  else Except.ok (get_transverity_amps_pipeline ext q2 wc_obj par_dict lep)

/-- Helper: with the CP flag unset — the only way this module itself ever
calls it, at line 129 — `get_transverity_amps` succeeds and returns the
pipeline value. -/
lemma get_transverity_amps_false {W T : Type} (ext : Externals W T) (q2 : ℝ)
    (wc_obj : W) (par : Par) (lep : Lepton) :
    get_transverity_amps ext q2 wc_obj par lep false =
      Except.ok (get_transverity_amps_pipeline ext q2 wc_obj par lep) := rfl

/-- Embedding of `get_obs(function, q2, wc_obj, par, lep)`: return `0`
outside the kinematic window `[4·ml², (mLb−mL)²]`, otherwise apply the
requested functional to the angular coefficients built from the
transversity amplitudes and the decay parameter `Lambda->ppi alpha_-`.
The call to `get_transverity_amps` carries `cp_conjugate=False` and hence
always succeeds with the pipeline value (`get_transverity_amps_false`). -/
def get_obs {W T : Type} (ext : Externals W T) (function : (AngKey → ℝ) → ℝ)
    (q2 : ℝ) (wc_obj : W) (par : Par) (lep : Lepton) : ℝ :=
  let ml := par.m_lep lep
  let mLb := par.m_Lambdab
  let mL := par.m_Lambda
  if q2 < 4 * ml ^ 2 ∨ (mLb - mL) ^ 2 < q2 then 0
  else
    let ta := get_transverity_amps_pipeline ext q2 wc_obj par lep
    let alpha := par.alphaDecay
    let K := angular_coefficients ta alpha
    function K

/-- Embedding of `dGdq2(K)`: the total-rate functional `2·K[1ss]+K[1cc]`. -/
def dGdq2 (K : AngKey → ℝ) : ℝ := 2 * K AngKey.k1ss + K AngKey.k1cc

/-- Embedding of `dbrdq2(q2, wc_obj, par, lep)`: the parent lifetime
times the rate density `get_obs(dGdq2, ...)`. -/
def dbrdq2 {W T : Type} (ext : Externals W T) (q2 : ℝ) (wc_obj : W)
    (par : Par) (lep : Lepton) : ℝ :=
  let tauLb := par.tau_Lambdab
  tauLb * get_obs ext dGdq2 q2 wc_obj par lep

/-- Embedding of `dbrdq2_int(q2min, q2max, wc_obj, par, lep)`: the
external numeric integral of the density over `[q2min, q2max]`, divided
by the bin width. -/
def dbrdq2_int {W T : Type} (ext : Externals W T) (q2min q2max : ℝ)
    (wc_obj : W) (par : Par) (lep : Lepton) : ℝ :=
  ext.nintegrate (fun q2 => dbrdq2 ext q2 wc_obj par lep) q2min q2max / (q2max - q2min)

/-- Helper: outside the kinematic window `get_obs` returns `0`. -/
lemma get_obs_eq_zero_of_out {W T : Type} (ext : Externals W T)
    (function : (AngKey → ℝ) → ℝ) (q2 : ℝ) (wc_obj : W) (par : Par) (lep : Lepton)
    (h : q2 < 4 * par.m_lep lep ^ 2 ∨ (par.m_Lambdab - par.m_Lambda) ^ 2 < q2) :
    get_obs ext function q2 wc_obj par lep = 0 := by
  simp only [get_obs]
  rw [if_pos h]

/-- Helper: inside the kinematic window `get_obs` applies the functional
to the angular coefficients of the pipeline. -/
lemma get_obs_eq_of_in {W T : Type} (ext : Externals W T)
    (function : (AngKey → ℝ) → ℝ) (q2 : ℝ) (wc_obj : W) (par : Par) (lep : Lepton)
    (h1 : 4 * par.m_lep lep ^ 2 ≤ q2) (h2 : q2 ≤ (par.m_Lambdab - par.m_Lambda) ^ 2) :
    get_obs ext function q2 wc_obj par lep =
      function (angular_coefficients
        (get_transverity_amps_pipeline ext q2 wc_obj par lep) par.alphaDecay) := by
  simp only [get_obs]
  rw [if_neg (not_or.mpr ⟨not_lt.mpr h1, not_lt.mpr h2⟩)]

/-- Claim C1: for every functional, Wilson-coefficient object, parameter
table and lepton flavor, `get_obs` returns exactly `0` whenever
`q2 < 4·ml²` or `q2 > (m_Lambdab − m_Lambda)²`, and inside the window it
returns the requested functional of the angular coefficients of the
pipeline. -/
theorem get_obs_kinematic_window {W T : Type} (ext : Externals W T)
    (function : (AngKey → ℝ) → ℝ) (q2 : ℝ) (wc_obj : W) (par : Par) (lep : Lepton) :
    (q2 < 4 * par.m_lep lep ^ 2 ∨ (par.m_Lambdab - par.m_Lambda) ^ 2 < q2 →
      get_obs ext function q2 wc_obj par lep = 0) ∧
    (4 * par.m_lep lep ^ 2 ≤ q2 → q2 ≤ (par.m_Lambdab - par.m_Lambda) ^ 2 →
      get_obs ext function q2 wc_obj par lep =
        function (angular_coefficients
          (get_transverity_amps_pipeline ext q2 wc_obj par lep) par.alphaDecay)) :=
  ⟨get_obs_eq_zero_of_out ext function q2 wc_obj par lep,
   get_obs_eq_of_in ext function q2 wc_obj par lep⟩

/-- Concrete parameter table used to instantiate theorems with
hypotheses.  Its kinematic window is `[0, 1]`. -/
def parFix : Par :=
  { m_Lambdab := 2, m_Lambda := 1, GF := 1, tau_Lambdab := 1,
    alphaDecay := 1, m_lep := fun _ => 0, rest := fun _ => 0 }

/-- Concrete external-collaborator record used to instantiate theorems
with hypotheses. -/
def extFix : Externals Unit Unit :=
  { scale := 1, get_mb := fun _ _ => 1, ff_prediction := fun _ _ _ => 1,
    wctot_dict := fun _ _ _ _ => Unit.unit, get_wceff := fun _ _ _ _ _ _ => 1,
    xi_t := fun _ => 1, alpha_e := fun _ _ => 1, nintegrate := fun _ _ _ => 0 }

/-- Witness for C1: at the concrete fixtures, `q2 = 2` lies above the
window `[0, 1]` and yields `0`, while `q2 = 1` lies inside and yields the
functional of the angular coefficients. -/
theorem get_obs_kinematic_window_witness :
    get_obs extFix dGdq2 2 Unit.unit parFix Lepton.e = 0 ∧
    get_obs extFix dGdq2 1 Unit.unit parFix Lepton.e =
      dGdq2 (angular_coefficients
        (get_transverity_amps_pipeline extFix 1 Unit.unit parFix Lepton.e) parFix.alphaDecay) :=
  ⟨(get_obs_kinematic_window extFix dGdq2 2 Unit.unit parFix Lepton.e).1
      (Or.inr (by norm_num [parFix])),
   (get_obs_kinematic_window extFix dGdq2 1 Unit.unit parFix Lepton.e).2
      (by norm_num [parFix]) (by norm_num [parFix])⟩

/-- Claim C9: for every transversity amplitude set and every α, the
angular coefficients `1ss` and `1cc` are non-negative, and so is the
total-rate functional `dGdq2 = 2·K[1ss] + K[1cc]`. -/
theorem angular_coefficients_rate_nonneg (ta : AmpType × Chir → ℂ) (alpha : ℝ) :
    0 ≤ angular_coefficients ta alpha AngKey.k1ss ∧
    0 ≤ angular_coefficients ta alpha AngKey.k1cc ∧
    0 ≤ dGdq2 (angular_coefficients ta alpha) := by
  refine ⟨?_, ?_, ?_⟩ <;> simp only [dGdq2, angular_coefficients] <;> positivity

/-- Claim C6: inside the kinematic window, `dbrdq2` is the parent
lifetime times the total-rate functional `2·K[1ss] + K[1cc]` of the
angular coefficients; and for every bin, `dbrdq2_int` is the external
numeric integral of that density over `[q2min, q2max]` divided by the
bin width — the bin-averaged density, not the raw integral. -/
theorem dbrdq2_and_binned {W T : Type} (ext : Externals W T) (q2 : ℝ)
    (wc_obj : W) (par : Par) (lep : Lepton) :
    (4 * par.m_lep lep ^ 2 ≤ q2 → q2 ≤ (par.m_Lambdab - par.m_Lambda) ^ 2 →
      dbrdq2 ext q2 wc_obj par lep =
        par.tau_Lambdab *
          (2 * angular_coefficients
              (get_transverity_amps_pipeline ext q2 wc_obj par lep) par.alphaDecay AngKey.k1ss
           + angular_coefficients
              (get_transverity_amps_pipeline ext q2 wc_obj par lep) par.alphaDecay AngKey.k1cc)) ∧
    (∀ q2min q2max : ℝ, q2min < q2max →
      dbrdq2_int ext q2min q2max wc_obj par lep =
        ext.nintegrate
          (fun x => par.tau_Lambdab * get_obs ext dGdq2 x wc_obj par lep) q2min q2max /
          (q2max - q2min)) := by
  constructor
  · intro h1 h2
    simp only [dbrdq2]
    rw [get_obs_eq_of_in ext dGdq2 q2 wc_obj par lep h1 h2]
    rfl
  · intro q2min q2max _
    rfl

/-- Witness for C6: at the concrete fixtures, `q2 = 1` lies inside the
window `[0, 1]` and the bin `[0, 1]` is non-degenerate. -/
theorem dbrdq2_and_binned_witness :
    dbrdq2 extFix 1 Unit.unit parFix Lepton.e =
      parFix.tau_Lambdab *
        (2 * angular_coefficients
            (get_transverity_amps_pipeline extFix 1 Unit.unit parFix Lepton.e)
            parFix.alphaDecay AngKey.k1ss
         + angular_coefficients
            (get_transverity_amps_pipeline extFix 1 Unit.unit parFix Lepton.e)
            parFix.alphaDecay AngKey.k1cc) ∧
    dbrdq2_int extFix 0 1 Unit.unit parFix Lepton.e =
      extFix.nintegrate
        (fun x => parFix.tau_Lambdab * get_obs extFix dGdq2 x Unit.unit parFix Lepton.e)
        0 1 / (1 - 0) :=
  ⟨(dbrdq2_and_binned extFix 1 Unit.unit parFix Lepton.e).1
      (by norm_num [parFix]) (by norm_num [parFix]),
   (dbrdq2_and_binned extFix 1 Unit.unit parFix Lepton.e).2 0 1 (by norm_num)⟩

/-- Claim C7 (code bug): calling `get_transverity_amps` with the
CP-conjugation flag set never transforms the parameter table and never
runs the pipeline — the name `conjugate_par` at line 106 of the source is
neither defined in the module nor imported, so the call fails with a
`NameError` first.  Evaluated at a concrete input. -/
theorem get_transverity_amps_cp_flag_raises :
    get_transverity_amps extFix 1 Unit.unit parFix Lepton.e true =
      Except.error PyErr.nameErrorConjugatePar := rfl

end
